import Mathlib

set_option maxRecDepth 8000

/-! Verification development for the patient-access analysis server.
The repository ships one source file containing two variants of the same
Express application: an ESM variant (`server.mjs`, lines 1-189) and a
CommonJS variant (`server.js` text, lines 189-372).  Both expose
`GET /health` and `POST /api/patient-access/analyze`.  The handlers are
shallowly embedded below as pure Lean functions: the external
chat-completion client is an oracle argument from request parameters to
an outcome, `JSON.parse` is modelled by the executable fuel-based parser
`jsonParse`, and an HTTP response is a status code together with a JSON
body. -/

namespace PatientAccess

/-- JSON values as produced by `JSON.parse`.  Objects are modelled as
association lists of members in source order. -/
inductive Json where
  | null : Json
  | bool (b : Bool) : Json
  | num (q : ℚ) : Json
  | str (s : String) : Json
  | arr (elems : List Json) : Json
  | obj (members : List (String × Json)) : Json

/-- JSON insignificant whitespace characters. -/
def isJsonWs (c : Char) : Bool :=
  c = ' ' || c = '\t' || c = '\n' || c = '\r'

/-- Drop leading JSON whitespace. -/
def skipWs : List Char → List Char
  | [] => []
  | c :: cs => if isJsonWs c then skipWs cs else c :: cs

/-- Value of a hexadecimal digit, if any. -/
def hexVal (c : Char) : Option Nat :=
  if '0' ≤ c ∧ c ≤ '9' then some (c.toNat - 48)
  else if 'a' ≤ c ∧ c ≤ 'f' then some (c.toNat - 87)
  else if 'A' ≤ c ∧ c ≤ 'F' then some (c.toNat - 55)
  else none

/-- Single-character JSON string escapes. -/
def escChar (c : Char) : Option Char :=
  if c = '"' then some '"'
  else if c = '\\' then some '\\'
  else if c = '/' then some '/'
  else if c = 'b' then some (Char.ofNat 8)
  else if c = 'f' then some (Char.ofNat 12)
  else if c = 'n' then some '\n'
  else if c = 'r' then some '\r'
  else if c = 't' then some '\t'
  else none

/-- Parse the body of a JSON string literal (the opening quote already
consumed), returning the decoded string and the rest of the input. -/
def parseStrAux : Nat → List Char → List Char → Option (String × List Char)
  | 0, _, _ => none
  | _ + 1, acc, [] => (fun _ => none) acc
  | fuel + 1, acc, c :: rest =>
    if c = '"' then some (String.mk acc.reverse, rest)
    else if c = '\\' then
      match rest with
      | [] => none
      | e :: rest2 =>
        if e = 'u' then
          match rest2 with
          | h1 :: h2 :: h3 :: h4 :: rest3 =>
            match hexVal h1, hexVal h2, hexVal h3, hexVal h4 with
            | some a, some b, some c2, some d =>
              parseStrAux fuel (Char.ofNat (((a * 16 + b) * 16 + c2) * 16 + d) :: acc) rest3
            | _, _, _, _ => none
          | _ => none
        else
          match escChar e with
          | some ec => parseStrAux fuel (ec :: acc) rest2
          | none => none
    else if c.toNat < 32 then none
    else parseStrAux fuel (c :: acc) rest

/-- Consume a maximal run of decimal digits. -/
def takeDigits : List Char → List Char × List Char
  | [] => ([], [])
  | c :: cs =>
    if c.isDigit then
      match takeDigits cs with
      | (ds, r) => (c :: ds, r)
    else ([], c :: cs)

/-- Numeric value of a digit run. -/
def digitsVal (l : List Char) : Nat :=
  l.foldl (fun a c => a * 10 + (c.toNat - 48)) 0

/-- Parse a JSON number (strict grammar: no leading zeros, a fraction or
exponent part must contain at least one digit), as an exact rational. -/
def parseNumber (l : List Char) : Option (ℚ × List Char) :=
  let signLess : Bool × List Char :=
    match l with
    | '-' :: rest => (true, rest)
    | _ => (false, l)
  match takeDigits signLess.2 with
  | ([], _) => none
  | (intDs, r1) =>
    if intDs.head? = some '0' ∧ intDs.length ≠ 1 then none
    else
      let afterFrac : Option (ℚ × List Char) :=
        match r1 with
        | '.' :: rest =>
          match takeDigits rest with
          | ([], _) => none
          | (fds, r2) =>
            some ((digitsVal intDs : ℚ) + (digitsVal fds : ℚ) / (10 : ℚ) ^ fds.length, r2)
        | _ => some ((digitsVal intDs : ℚ), r1)
      match afterFrac with
      | none => none
      | some (mant, r2) =>
        let afterExp : Option (ℚ × List Char) :=
          match r2 with
          | [] => some (mant, r2)
          | e :: rest =>
            if e = 'e' ∨ e = 'E' then
              let signExp : ℤ × List Char :=
                match rest with
                | '+' :: rr => (1, rr)
                | '-' :: rr => (-1, rr)
                | _ => (1, rest)
              match takeDigits signExp.2 with
              | ([], _) => none
              | (eds, r3) => some (mant * (10 : ℚ) ^ (signExp.1 * (digitsVal eds : ℤ)), r3)
            else some (mant, r2)
        match afterExp with
        | none => none
        | some (v, r) => some ((if signLess.1 then -v else v), r)

mutual

/-- Parse one JSON value after skipping leading whitespace. -/
def parseVal : Nat → List Char → Option (Json × List Char)
  | 0, _ => none
  | fuel + 1, l =>
    match skipWs l with
    | [] => none
    | c :: rest =>
      if c = '"' then
        (parseStrAux (rest.length + 1) [] rest).map (fun p => (Json.str p.1, p.2))
      else if c = 't' then
        match rest with
        | 'r' :: 'u' :: 'e' :: r => some (Json.bool true, r)
        | _ => none
      else if c = 'f' then
        match rest with
        | 'a' :: 'l' :: 's' :: 'e' :: r => some (Json.bool false, r)
        | _ => none
      else if c = 'n' then
        match rest with
        | 'u' :: 'l' :: 'l' :: r => some (Json.null, r)
        | _ => none
      else if c = '[' then
        match skipWs rest with
        | ']' :: r => some (Json.arr [], r)
        | l2 => (parseArrItems fuel l2).map (fun p => (Json.arr p.1, p.2))
      else if c = '\x7b' then
        match skipWs rest with
        | '\x7d' :: r => some (Json.obj [], r)
        | l2 => (parseObjItems fuel l2).map (fun p => (Json.obj p.1, p.2))
      else
        (parseNumber (c :: rest)).map (fun p => (Json.num p.1, p.2))

/-- Parse the comma-separated items of a non-empty JSON array, up to and
including the closing bracket. -/
def parseArrItems : Nat → List Char → Option (List Json × List Char)
  | 0, _ => none
  | fuel + 1, l =>
    match parseVal fuel l with
    | none => none
    | some (v, r) =>
      match skipWs r with
      | ',' :: r2 => (parseArrItems fuel r2).map (fun p => (v :: p.1, p.2))
      | ']' :: r2 => some ([v], r2)
      | _ => none

/-- Parse the comma-separated members of a non-empty JSON object, up to
and including the closing brace. -/
def parseObjItems : Nat → List Char → Option (List (String × Json) × List Char)
  | 0, _ => none
  | fuel + 1, l =>
    match skipWs l with
    | '"' :: rest =>
      match parseStrAux (rest.length + 1) [] rest with
      | none => none
      | some (key, r) =>
        match skipWs r with
        | ':' :: r2 =>
          match parseVal fuel r2 with
          | none => none
          | some (v, r3) =>
            match skipWs r3 with
            | ',' :: r4 => (parseObjItems fuel r4).map (fun p => ((key, v) :: p.1, p.2))
            | '\x7d' :: r4 => some ([(key, v)], r4)
            | _ => none
        | _ => none
    | _ => none

end

/-- Model of JavaScript `JSON.parse`: `none` where `JSON.parse` throws a
`SyntaxError`, otherwise the parsed value.  The whole input (up to
trailing whitespace) must be consumed. -/
def jsonParse (s : String) : Option Json :=
  match parseVal (2 * s.length + 2) s.data with
  | none => none
  | some (v, rest) => if skipWs rest = [] then some v else none

/-- Sanity check: the empty object parses. -/
theorem jsonParse_emptyObj : jsonParse "\x7b\x7d" = some (Json.obj []) := rfl

/-- Sanity check: plain prose is rejected. -/
theorem jsonParse_notJson : jsonParse "not json" = none := rfl

/-- Sanity check: the empty input is rejected. -/
theorem jsonParse_empty : jsonParse "" = none := rfl

/-- Sanity check: nested values and whitespace. -/
theorem jsonParse_nested : jsonParse " \x7b \"a\" : [1, true, null] \x7d " =
    some (Json.obj [("a", Json.arr [Json.num 1, Json.bool true, Json.null])]) := rfl

/-- Sanity check: the two-member object of the spec's stub test. -/
theorem jsonParse_stub : jsonParse "\x7b\"summary\":\"x\",\"riskLevel\":\"low\"\x7d" =
    some (Json.obj [("summary", Json.str "x"), ("riskLevel", Json.str "low")]) := rfl

/-- JavaScript truthiness of an optional string field (`undefined`/`null`
and the empty string are falsy). -/
def truthy (o : Option String) : Bool :=
  match o with
  | some s => s != ""
  | none => false

/-- JavaScript `x || ...` on an optional string: `some s` when `x` is
truthy, `none` otherwise. -/
def truthyStr (o : Option String) : Option String :=
  o.bind (fun s => if s = "" then none else some s)

/-- JavaScript `x || ...` on an optional number: `some n` when `x` is
truthy (`undefined`, `null` and `0` are falsy). -/
def truthyNat (o : Option Nat) : Option Nat :=
  o.bind (fun n => if n = 0 then none else some n)

/-- JavaScript `x || d` for an optional string `x` and a string default. -/
def jsOr (o : Option String) (d : String) : String :=
  match truthyStr o with
  | some s => s
  | none => d

/-- Body of `POST /api/patient-access/analyze`.  Each field is absent
(`undefined`/`null`) or a string. -/
structure ReqBody where
  callType : Option String
  persona : Option String
  notes : Option String
  goal : Option String

/-- The `\x7b\x7d` that `req.body || \x7b\x7d` falls back to: a body with every
field `undefined`. -/
def emptyBody : ReqBody := ⟨none, none, none, none⟩

/-- One element of the `messages` array of a chat-completion request. -/
structure ChatMessage where
  role : String
  content : String

/-- Arguments of `client.chat.completions.create(...)` as built by the
handlers: model identifier, sampling temperature, `response_format.type`,
and the messages array. -/
structure CreateParams where
  model : String
  temperature : ℚ
  responseFormatType : String
  messages : List ChatMessage

/-- The `message` object of a completion choice (`content` may be
`null`/`undefined`). -/
structure CompletionMessage where
  content : Option String

/-- One element of `completion.choices`. -/
structure CompletionChoice where
  message : Option CompletionMessage

/-- The value resolved from `client.chat.completions.create(...)`; the
`choices` array itself may be absent. -/
structure Completion where
  choices : Option (List CompletionChoice)

/-- Innermost `\x7b message \x7d` of a provider error payload. -/
structure ErrDetail where
  message : Option String

/-- The `data` object of a provider error response (`data.error.message`). -/
structure ErrData where
  error : Option ErrDetail

/-- The `response` object of a thrown client error
(`response.status`, `response.data`). -/
structure ErrResponse where
  status : Option Nat
  data : Option ErrData

/-- Shape of a value thrown by the OpenAI client, covering every property
path the two catch blocks read (`name` is read only for logging). -/
structure JsError where
  status : Option Nat
  response : Option ErrResponse
  error : Option ErrDetail
  message : Option String
  name : Option String

/-- Outcome of awaiting `client.chat.completions.create(...)`: either a
resolved completion or a rejection carrying the thrown error. -/
inductive CallOutcome where
  | success (completion : Completion) : CallOutcome
  | failure (e : JsError) : CallOutcome

/-- An HTTP response as produced by `res.status(...).json(...)` /
`res.json(...)` (the latter with status 200). -/
structure HttpResponse where
  status : Nat
  body : Json

/-- `completion.choices?.[0]?.message?.content` as an optional string. -/
def extractContent (c : Completion) : Option String :=
  ((c.choices.bind List.head?).bind CompletionChoice.message).bind CompletionMessage.content

/-- `TEXT_MODEL` of the ESM variant:
`process.env.TEXT_MODEL || "gpt-4o-mini"`. -/
def TEXT_MODEL_mjs (env : Option String) : String :=
  jsOr env "gpt-4o-mini"

/-- `TEXT_MODEL` of the CommonJS variant:
`process.env.TEXT_MODEL || "gpt-4.1-mini"`. -/
def TEXT_MODEL_js (env : Option String) : String :=
  jsOr env "gpt-4.1-mini"

/-- Default persona label interpolated when `persona` is falsy. -/
def defaultPersona : String := "General Stanford Patient Access leader"

/-- Default goal statement interpolated when `goal` is falsy. -/
def defaultGoal : String := "Optimize access and experience while protecting resources."

/-- System prompt of the ESM variant: the template literal assigned to
`systemPrompt` (source lines 57-122), leading and trailing newline
included. -/
def mjsSystemPrompt : String :=
"
You are an AI co-pilot for Stanford Health Care\x27s Patient Access Center
serving the Redwood City and Newark locations.

You support:
- Silvia (Sr. Manager, Patient Access & Provider Relations)
- Chona (Radiology Scheduling, complex radiology w/ pre-auth)
- Karen (Contact Center Management)
- Gayathri (LEAN & process improvement)

Core call types:
- New Patient Scheduling (complex)
- Radiology w/ Pre-Auth (complex)
- Provider Referral Coordination (complex)
- Appointment Rescheduling (simple)
- Patient Demographics Update (simple)

Use LEAN language (MUDA, value stream, 5 Whys, Kaizen) and focus on:
- Days to appointment
- Complex vs simple calls
- Provider satisfaction and referral completion
- Patient experience and \"getting appointments\"

You are NOT allowed to give generic canned responses.
You must tailor your answer to the specific scenario, notes, and goal.

You MUST respond as a single VALID JSON object, with this exact shape:

\x7b
  \"summary\": \"One paragraph executive summary for Silvia in plain language.\",
  \"riskLevel\": \"low\" | \"medium\" | \"high\",
  \"recommendedDisposition\": \"What the agent should do next (route, schedule, escalate, close loop).\",
  \"schedulingPlan\": \"Step-by-step scheduling guidance for the specific scenario.\",
  \"scripts\": \x7b
    \"opening\": \"Friendly, professional opening script.\",
    \"probingQuestions\": [
      \"Question 1\",
      \"Question 2\",
      \"Question 3\"
    ],
    \"expectationSetting\": \"Exact language to set expectations about next steps and timing.\",
    \"closing\": \"Strong closing that reassures patient and/or provider.\"
  \x7d,
  \"leanInsights\": \x7b
    \"mudaTypes\": [\"overprocessing\", \"waiting\", \"rework\"],
    \"rootCause\": \"Short explanation using 5 Whys logic.\",
    \"quickWins\": [
      \"Fast improvement idea 1\",
      \"Fast improvement idea 2\"
    ],
    \"longerTermFixes\": [
      \"Bigger structural fix 1\",
      \"Bigger structural fix 2\"
    ]
  \x7d,
  \"providerImpact\": \"How this scenario affects provider satisfaction & referral completion.\",
  \"metricsImpact\": \x7b
    \"daysToAppointment\": \x7b
      \"current\": 4.1,
      \"projected\": 2.3
    \x7d,
    \"fcrImpact\": \"Describe impact on First Call Resolution in words.\",
    \"hcahpsImpact\": \"Describe impact on \x27getting appointments\x27 in words.\"
  \x7d
\x7d
"

/-- System prompt of the CommonJS variant: the template literal assigned
to `systemPrompt` (source lines 243-306).  It differs from the ESM one in
the LEAN-focus paragraph and in the sentence introducing the JSON
template. -/
def jsSystemPrompt : String :=
"
You are an AI co-pilot for Stanford Health Care\x27s Patient Access Center
serving the Redwood City and Newark locations.

You support:
- Silvia (Sr. Manager, Patient Access & Provider Relations)
- Chona (Radiology Scheduling, complex radiology w/ pre-auth)
- Karen (Contact Center Management)
- Gayathri (LEAN & process improvement)

Core call types:
- New Patient Scheduling (complex)
- Radiology w/ Pre-Auth (complex)
- Provider Referral Coordination (complex)
- Appointment Rescheduling (simple)
- Patient Demographics Update (simple)

Use LEAN language (MUDA, value stream, 5 Whys, Kaizen) and focus on
days to appointment, complex vs simple calls, provider satisfaction,
and patient experience.

You are NOT allowed to give generic canned responses.
You must tailor your answer to the specific scenario, notes, and goal.

Always respond with VALID JSON ONLY, no extra commentary, matching exactly:

\x7b
  \"summary\": \"One paragraph executive summary for Silvia in plain language.\",
  \"riskLevel\": \"low\" | \"medium\" | \"high\",
  \"recommendedDisposition\": \"What the agent should do next (route, schedule, escalate, close loop).\",
  \"schedulingPlan\": \"Step-by-step scheduling guidance for the specific scenario.\",
  \"scripts\": \x7b
    \"opening\": \"Friendly, professional opening script.\",
    \"probingQuestions\": [
      \"Question 1\",
      \"Question 2\",
      \"Question 3\"
    ],
    \"expectationSetting\": \"Exact language to set expectations about next steps and timing.\",
    \"closing\": \"Strong closing that reassures patient and/or provider.\"
  \x7d,
  \"leanInsights\": \x7b
    \"mudaTypes\": [\"overprocessing\", \"waiting\", \"rework\"],
    \"rootCause\": \"Short explanation using 5 Whys logic.\",
    \"quickWins\": [
      \"Fast improvement idea 1\",
      \"Fast improvement idea 2\"
    ],
    \"longerTermFixes\": [
      \"Bigger structural fix 1\",
      \"Bigger structural fix 2\"
    ]
  \x7d,
  \"providerImpact\": \"How this scenario affects provider satisfaction & referral completion.\",
  \"metricsImpact\": \x7b
    \"daysToAppointment\": \x7b
      \"current\": 4.1,
      \"projected\": 2.3
    \x7d,
    \"fcrImpact\": \"Describe impact on First Call Resolution in words.\",
    \"hcahpsImpact\": \"Describe impact on \x27getting appointments\x27 in words.\"
  \x7d
\x7d
"

/-- User prompt template (identical text in both variants, source lines
124-137 and 308-321): the `userPrompt` template literal with `callType`,
`persona || default`, `goal || default` and `notes` interpolated. -/
def userPromptOf (callType : String) (persona : Option String)
    (notes : String) (goal : Option String) : String :=
  "\nCALL TYPE: " ++ callType
    ++ "\nPERSONA (primary audience for explanation): " ++ jsOr persona defaultPersona
    ++ "\nGOAL: " ++ jsOr goal defaultGoal
    ++ "\n\nCALL / SCENARIO NOTES:\n" ++ notes
    ++ "\n\nReturn ONLY the JSON object, no backticks, no markdown, no extra text.\nIf data is missing, make reasonable assumptions consistent with Stanford\nPatient Access operations and LEAN methodology.\n"

/-- Prompt composition of the ESM variant as a pure function from the
validated request fields to the (system, user) pair of strings. -/
def composePromptsMjs (callType : String) (persona : Option String)
    (notes : String) (goal : Option String) : String × String :=
  (mjsSystemPrompt, userPromptOf callType persona notes goal)

/-- Prompt composition of the CommonJS variant as a pure function from
the validated request fields to the (system, user) pair of strings. -/
def composePromptsJs (callType : String) (persona : Option String)
    (notes : String) (goal : Option String) : String × String :=
  (jsSystemPrompt, userPromptOf callType persona notes goal)

/-- The object literal passed to `client.chat.completions.create` by the
ESM variant (source lines 139-147). -/
def mjsCreateParams (env : Option String) (callType : String)
    (persona : Option String) (notes : String) (goal : Option String) : CreateParams :=
  ⟨TEXT_MODEL_mjs env, 0.2, "json_object",
   [⟨"system", (composePromptsMjs callType persona notes goal).1⟩,
    ⟨"user", (composePromptsMjs callType persona notes goal).2⟩]⟩

/-- The object literal passed to `client.chat.completions.create` by the
CommonJS variant (source lines 323-333). -/
def jsCreateParams (env : Option String) (callType : String)
    (persona : Option String) (notes : String) (goal : Option String) : CreateParams :=
  ⟨TEXT_MODEL_js env, 0.2, "json_object",
   [⟨"system", (composePromptsJs callType persona notes goal).1⟩,
    ⟨"user", (composePromptsJs callType persona notes goal).2⟩]⟩

/-- Catch block of the ESM variant (source lines 166-184):
`status = error?.status || error?.response?.status`, a three-step message
precedence ending in a literal fallback, and an error string that embeds
`status || "unknown"`. -/
def mjsErrorResponse (e : JsError) : HttpResponse :=
  let status : Option Nat :=
    match truthyNat e.status with
    | some n => some n
    | none => e.response.bind ErrResponse.status
  let message : String :=
    match truthyStr (((e.response.bind ErrResponse.data).bind ErrData.error).bind ErrDetail.message) with
    | some m => m
    | none =>
      match truthyStr (e.error.bind ErrDetail.message) with
      | some m => m
      | none =>
        match truthyStr e.message with
        | some m => m
        | none => "Failed to generate analysis."
  let statusDisp : String :=
    match truthyNat status with
    | some n => toString n
    | none => "unknown"
  ⟨500, Json.obj [("success", Json.bool false),
      ("error", Json.str ("OpenAI error (" ++ statusDisp ++ "): " ++ message))]⟩

/-- Catch block of the CommonJS variant (source lines 352-366): a
two-step message precedence ending in a literal fallback; the upstream
status is logged but not embedded in the response. -/
def jsErrorResponse (e : JsError) : HttpResponse :=
  let message : String :=
    match truthyStr (((e.response.bind ErrResponse.data).bind ErrData.error).bind ErrDetail.message) with
    | some m => m
    | none =>
      match truthyStr e.message with
      | some m => m
      | none => "Failed to generate analysis."
  ⟨500, Json.obj [("success", Json.bool false), ("error", Json.str message)]⟩

/-- Handler of `POST /api/patient-access/analyze`, ESM variant (source
lines 46-185).  `env` is `process.env.TEXT_MODEL`, `reqBody` is
`req.body` (`none` for `undefined`/`null`), and `api` is the oracle for
`client.chat.completions.create`.  Returns the HTTP response together
with the list of calls made to the external capability. -/
def analyzeMjs (env : Option String) (reqBody : Option ReqBody)
    (api : CreateParams → CallOutcome) : HttpResponse × List CreateParams :=
  let b := reqBody.getD emptyBody
  if !(truthy b.callType) || !(truthy b.notes) then
    (⟨400, Json.obj [("success", Json.bool false),
        ("error", Json.str "callType and notes are required.")]⟩, [])
  else
    let params := mjsCreateParams env (b.callType.getD "") b.persona (b.notes.getD "") b.goal
    match api params with
    | .success completion =>
      let raw := jsOr (extractContent completion) "\x7b\x7d"
      match jsonParse raw with
      | none =>
        (⟨500, Json.obj [("success", Json.bool false),
            ("error", Json.str "Model output was not valid JSON.")]⟩, [params])
      | some parsed =>
        (⟨200, Json.obj [("success", Json.bool true), ("analysis", parsed)]⟩, [params])
    | .failure e => (mjsErrorResponse e, [params])

/-- Handler of `POST /api/patient-access/analyze`, CommonJS variant
(source lines 232-367).  Identical to the ESM variant except for the
system prompt, the default model, the soft parse-failure fallback and the
catch-block message. -/
def analyzeJs (env : Option String) (reqBody : Option ReqBody)
    (api : CreateParams → CallOutcome) : HttpResponse × List CreateParams :=
  let b := reqBody.getD emptyBody
  if !(truthy b.callType) || !(truthy b.notes) then
    (⟨400, Json.obj [("success", Json.bool false),
        ("error", Json.str "callType and notes are required.")]⟩, [])
  else
    let params := jsCreateParams env (b.callType.getD "") b.persona (b.notes.getD "") b.goal
    match api params with
    | .success completion =>
      let raw := jsOr (extractContent completion) "\x7b\x7d"
      let parsed :=
        match jsonParse raw with
        | some p => p
        | none =>
          Json.obj [("summary", Json.str "Model returned non-JSON output from OpenAI."),
                    ("raw", Json.str raw)]
      (⟨200, Json.obj [("success", Json.bool true), ("analysis", parsed)]⟩, [params])
    | .failure e => (jsErrorResponse e, [params])

/-- Handler of `GET /health`, ESM variant (source lines 36-38).  The
arguments model `process.env.OPENAI_API_KEY` and `process.env.TEXT_MODEL`,
which the handler does not read. -/
def healthMjs (_apiKey _textModelEnv : Option String) : HttpResponse :=
  ⟨200, Json.obj [("status", Json.str "ok")]⟩

/-- Handler of `GET /health`, CommonJS variant (source lines 222-224). -/
def healthJs (_apiKey _textModelEnv : Option String) : HttpResponse :=
  ⟨200, Json.obj [("status", Json.str "ok")]⟩

/-- Characters of the middle factor of a three-part concatenation form an
infix of the whole. -/
theorem strInfixChunk (a t b : String) : t.data <:+: (a ++ t ++ b).data :=
  ⟨a.data, b.data, by simp [String.data_append]⟩

/-- Characters of the second factor of a concatenation form an infix of
the whole. -/
theorem strInfixRight (a t : String) : t.data <:+: (a ++ t).data :=
  ⟨a.data, [], by simp [String.data_append]⟩

/-- When both required fields are present and non-empty, the validation
guard `!callType || !notes` is false. -/
theorem validBody_check (ct n : String) (hct : ct ≠ "") (hn : n ≠ "") :
    (!(truthy (some ct)) || !(truthy (some n))) = false := by
  simp [truthy, hct, hn]

/-- When a required field is missing, the validation guard is true. -/
theorem invalidBody_check (b : ReqBody)
    (h : truthy b.callType = false ∨ truthy b.notes = false) :
    (!(truthy b.callType) || !(truthy b.notes)) = true := by
  rcases h with h | h <;> simp [h]

/-- `x || d` falls back to the default when `x` is falsy. -/
theorem jsOr_of_falsy (o : Option String) (d : String) (h : truthyStr o = none) :
    jsOr o d = d := by
  simp [jsOr, h]

/-- Character-list decomposition of the composed user prompt into its
fixed segments and interpolated fields. -/
theorem userPromptOf_data (ct : String) (p : Option String) (n : String) (g : Option String) :
    (userPromptOf ct p n g).data =
      "\nCALL TYPE: ".data ++ (ct.data
        ++ ("\nPERSONA (primary audience for explanation): ".data ++ ((jsOr p defaultPersona).data
        ++ ("\nGOAL: ".data ++ ((jsOr g defaultGoal).data
        ++ ("\n\nCALL / SCENARIO NOTES:\n".data ++ (n.data
        ++ "\n\nReturn ONLY the JSON object, no backticks, no markdown, no extra text.\nIf data is missing, make reasonable assumptions consistent with Stanford\nPatient Access operations and LEAN methodology.\n".data))))))) := by
  simp [userPromptOf, String.data_append, List.append_assoc]

/-- The ESM analyze handler on a request missing a required field. -/
theorem analyzeMjs_invalid (env : Option String) (reqBody : Option ReqBody)
    (api : CreateParams → CallOutcome)
    (h : truthy ((reqBody.getD emptyBody).callType) = false ∨
         truthy ((reqBody.getD emptyBody).notes) = false) :
    analyzeMjs env reqBody api =
      (⟨400, Json.obj [("success", Json.bool false),
          ("error", Json.str "callType and notes are required.")]⟩, []) := by
  have hv := invalidBody_check (reqBody.getD emptyBody) h
  simp only [analyzeMjs, hv, if_true, Bool.true_eq_false]

/-- The CommonJS analyze handler on a request missing a required field. -/
theorem analyzeJs_invalid (env : Option String) (reqBody : Option ReqBody)
    (api : CreateParams → CallOutcome)
    (h : truthy ((reqBody.getD emptyBody).callType) = false ∨
         truthy ((reqBody.getD emptyBody).notes) = false) :
    analyzeJs env reqBody api =
      (⟨400, Json.obj [("success", Json.bool false),
          ("error", Json.str "callType and notes are required.")]⟩, []) := by
  have hv := invalidBody_check (reqBody.getD emptyBody) h
  simp only [analyzeJs, hv, if_true, Bool.true_eq_false]

/-- The ESM analyze handler on a validated request whose external call
rejects. -/
theorem analyzeMjs_failure (env : Option String) (ct n : String) (p g : Option String)
    (hct : ct ≠ "") (hn : n ≠ "") (api : CreateParams → CallOutcome) (e : JsError)
    (hapi : api (mjsCreateParams env ct p n g) = CallOutcome.failure e) :
    analyzeMjs env (some ⟨some ct, p, some n, g⟩) api =
      (mjsErrorResponse e, [mjsCreateParams env ct p n g]) := by
  have hv := validBody_check ct n hct hn
  simp [analyzeMjs, hv, hapi]

/-- The CommonJS analyze handler on a validated request whose external
call rejects. -/
theorem analyzeJs_failure (env : Option String) (ct n : String) (p g : Option String)
    (hct : ct ≠ "") (hn : n ≠ "") (api : CreateParams → CallOutcome) (e : JsError)
    (hapi : api (jsCreateParams env ct p n g) = CallOutcome.failure e) :
    analyzeJs env (some ⟨some ct, p, some n, g⟩) api =
      (jsErrorResponse e, [jsCreateParams env ct p n g]) := by
  have hv := validBody_check ct n hct hn
  simp [analyzeJs, hv, hapi]

/-- The ESM analyze handler on a validated request whose external call
resolves and whose (fallback-substituted) text parses as JSON. -/
theorem analyzeMjs_parseOk (env : Option String) (ct n : String) (p g : Option String)
    (hct : ct ≠ "") (hn : n ≠ "") (api : CreateParams → CallOutcome)
    (comp : Completion) (j : Json)
    (hapi : api (mjsCreateParams env ct p n g) = CallOutcome.success comp)
    (hraw : jsonParse (jsOr (extractContent comp) "\x7b\x7d") = some j) :
    analyzeMjs env (some ⟨some ct, p, some n, g⟩) api =
      (⟨200, Json.obj [("success", Json.bool true), ("analysis", j)]⟩,
       [mjsCreateParams env ct p n g]) := by
  have hv := validBody_check ct n hct hn
  simp [analyzeMjs, hv, hapi, hraw]

/-- The CommonJS analyze handler on a validated request whose external
call resolves and whose (fallback-substituted) text parses as JSON. -/
theorem analyzeJs_parseOk (env : Option String) (ct n : String) (p g : Option String)
    (hct : ct ≠ "") (hn : n ≠ "") (api : CreateParams → CallOutcome)
    (comp : Completion) (j : Json)
    (hapi : api (jsCreateParams env ct p n g) = CallOutcome.success comp)
    (hraw : jsonParse (jsOr (extractContent comp) "\x7b\x7d") = some j) :
    analyzeJs env (some ⟨some ct, p, some n, g⟩) api =
      (⟨200, Json.obj [("success", Json.bool true), ("analysis", j)]⟩,
       [jsCreateParams env ct p n g]) := by
  have hv := validBody_check ct n hct hn
  simp [analyzeJs, hv, hapi, hraw]

/-- The ESM analyze handler on a validated request whose external call
resolves but whose text does not parse as JSON. -/
theorem analyzeMjs_parseFail (env : Option String) (ct n : String) (p g : Option String)
    (hct : ct ≠ "") (hn : n ≠ "") (api : CreateParams → CallOutcome) (comp : Completion)
    (hapi : api (mjsCreateParams env ct p n g) = CallOutcome.success comp)
    (hraw : jsonParse (jsOr (extractContent comp) "\x7b\x7d") = none) :
    analyzeMjs env (some ⟨some ct, p, some n, g⟩) api =
      (⟨500, Json.obj [("success", Json.bool false),
          ("error", Json.str "Model output was not valid JSON.")]⟩,
       [mjsCreateParams env ct p n g]) := by
  have hv := validBody_check ct n hct hn
  simp [analyzeMjs, hv, hapi, hraw]

/-- The CommonJS analyze handler on a validated request whose external
call resolves but whose text does not parse as JSON. -/
theorem analyzeJs_parseFail (env : Option String) (ct n : String) (p g : Option String)
    (hct : ct ≠ "") (hn : n ≠ "") (api : CreateParams → CallOutcome) (comp : Completion)
    (hapi : api (jsCreateParams env ct p n g) = CallOutcome.success comp)
    (hraw : jsonParse (jsOr (extractContent comp) "\x7b\x7d") = none) :
    analyzeJs env (some ⟨some ct, p, some n, g⟩) api =
      (⟨200, Json.obj [("success", Json.bool true),
          ("analysis", Json.obj [("summary", Json.str "Model returned non-JSON output from OpenAI."),
            ("raw", Json.str (jsOr (extractContent comp) "\x7b\x7d"))])]⟩,
       [jsCreateParams env ct p n g]) := by
  have hv := validBody_check ct n hct hn
  simp [analyzeJs, hv, hapi, hraw]

/-- Infix via the middle factor of `l₁ ++ (m ++ l₂)`. -/
theorem infix_mid_list {α : Type} (l₁ m l₂ : List α) : m <:+: l₁ ++ (m ++ l₂) :=
  ⟨l₁, l₂, by simp⟩

/-- An infix of a list is an infix of any left-extension of it. -/
theorem infix_ext_left {α : Type} (l₁ : List α) {m l₂ : List α} (h : m <:+: l₂) :
    m <:+: l₁ ++ l₂ :=
  h.trans (List.suffix_append l₁ l₂).isInfix

/-- C1: for every analyze request in which the external call succeeds but
the returned text does not parse as JSON, the ESM (strict) variant
responds 500 with success false and the fixed message about invalid model
output, its body never carrying the model text, while the CommonJS (soft)
variant responds 200 with success true and an analysis object whose `raw`
field is the unparsed model text verbatim; in both variants the handler
returns a well-formed response, so the parse failure never escapes. -/
theorem claim_parse_failure_degrade_policies
    (env : Option String) (ct n : String) (p g : Option String)
    (hct : ct ≠ "") (hn : n ≠ "")
    (api : CreateParams → CallOutcome) (comp : Completion)
    (hm : api (mjsCreateParams env ct p n g) = CallOutcome.success comp)
    (hj : api (jsCreateParams env ct p n g) = CallOutcome.success comp)
    (hraw : jsonParse (jsOr (extractContent comp) "\x7b\x7d") = none) :
    (analyzeMjs env (some ⟨some ct, p, some n, g⟩) api).1 =
      ⟨500, Json.obj [("success", Json.bool false),
          ("error", Json.str "Model output was not valid JSON.")]⟩ ∧
    (analyzeJs env (some ⟨some ct, p, some n, g⟩) api).1 =
      ⟨200, Json.obj [("success", Json.bool true),
          ("analysis", Json.obj [("summary", Json.str "Model returned non-JSON output from OpenAI."),
            ("raw", Json.str (jsOr (extractContent comp) "\x7b\x7d"))])]⟩ := by
  constructor
  · rw [analyzeMjs_parseFail env ct n p g hct hn api comp hm hraw]
  · rw [analyzeJs_parseFail env ct n p g hct hn api comp hj hraw]

/-- Witness for C1: a stubbed capability returning the text "not json". -/
theorem claim_parse_failure_degrade_policies_witness :
    ("New Patient Scheduling" : String) ≠ "" ∧
    jsonParse (jsOr (extractContent ⟨some [⟨some ⟨some "not json"⟩⟩]⟩) "\x7b\x7d") = none ∧
    (analyzeMjs none (some ⟨some "New Patient Scheduling", none, some "Patient waited.", none⟩)
        (fun _ => CallOutcome.success ⟨some [⟨some ⟨some "not json"⟩⟩]⟩)).1 =
      ⟨500, Json.obj [("success", Json.bool false),
          ("error", Json.str "Model output was not valid JSON.")]⟩ ∧
    (analyzeJs none (some ⟨some "New Patient Scheduling", none, some "Patient waited.", none⟩)
        (fun _ => CallOutcome.success ⟨some [⟨some ⟨some "not json"⟩⟩]⟩)).1 =
      ⟨200, Json.obj [("success", Json.bool true),
          ("analysis", Json.obj [("summary", Json.str "Model returned non-JSON output from OpenAI."),
            ("raw", Json.str "not json")])]⟩ := by
  refine ⟨by decide, rfl, ?_⟩
  exact claim_parse_failure_degrade_policies none "New Patient Scheduling" "Patient waited."
    none none (by decide) (by decide)
    (fun _ => CallOutcome.success ⟨some [⟨some ⟨some "not json"⟩⟩]⟩)
    ⟨some [⟨some ⟨some "not json"⟩⟩]⟩ rfl rfl rfl

/-- C2: a request lacking a truthy `callType` or a truthy `notes` gets
status 400 with exactly the fixed error body, and no call is made to the
external capability, in both variants. -/
theorem claim_validation_400_no_call
    (env : Option String) (reqBody : Option ReqBody) (api : CreateParams → CallOutcome)
    (h : truthy ((reqBody.getD emptyBody).callType) = false ∨
         truthy ((reqBody.getD emptyBody).notes) = false) :
    analyzeMjs env reqBody api =
      (⟨400, Json.obj [("success", Json.bool false),
          ("error", Json.str "callType and notes are required.")]⟩, []) ∧
    analyzeJs env reqBody api =
      (⟨400, Json.obj [("success", Json.bool false),
          ("error", Json.str "callType and notes are required.")]⟩, []) :=
  ⟨analyzeMjs_invalid env reqBody api h, analyzeJs_invalid env reqBody api h⟩

/-- Witness for C2: a body carrying only `callType`. -/
theorem claim_validation_400_no_call_witness :
    truthy (((some (ReqBody.mk (some "Appointment Rescheduling") none none none)).getD
        emptyBody).notes) = false ∧
    analyzeMjs none (some ⟨some "Appointment Rescheduling", none, none, none⟩)
        (fun _ => CallOutcome.failure ⟨none, none, none, none, none⟩) =
      (⟨400, Json.obj [("success", Json.bool false),
          ("error", Json.str "callType and notes are required.")]⟩, []) ∧
    analyzeJs none (some ⟨some "Appointment Rescheduling", none, none, none⟩)
        (fun _ => CallOutcome.failure ⟨none, none, none, none, none⟩) =
      (⟨400, Json.obj [("success", Json.bool false),
          ("error", Json.str "callType and notes are required.")]⟩, []) := by
  refine ⟨rfl, ?_, ?_⟩
  · exact (claim_validation_400_no_call none (some ⟨some "Appointment Rescheduling", none, none, none⟩)
      (fun _ => CallOutcome.failure ⟨none, none, none, none, none⟩) (Or.inr rfl)).1
  · exact (claim_validation_400_no_call none (some ⟨some "Appointment Rescheduling", none, none, none⟩)
      (fun _ => CallOutcome.failure ⟨none, none, none, none, none⟩) (Or.inr rfl)).2

/-- C3 counterexample: in the CommonJS variant, a rejection with known
status 429 and message "rate limited" produces the error string
"rate limited", in which the upstream status code is not embedded, so the
status-embedding part of the claim fails on that variant. -/
theorem claim_catch_responds_500_counterexample :
    (analyzeJs none (some ⟨some "Radiology w/ Pre-Auth", none, some "Pre-auth pending.", none⟩)
        (fun _ => CallOutcome.failure ⟨some 429, none, none, some "rate limited", some "Error"⟩)).1 =
      ⟨500, Json.obj [("success", Json.bool false), ("error", Json.str "rate limited")]⟩ ∧
    ¬ ("429".data <:+: "rate limited".data) :=
  ⟨rfl, by decide⟩

/-- C3 amended: both variants catch a failed external call and respond
500 with success false.  The ESM variant's error string embeds the
upstream status (or "unknown") and the message chosen by the precedence
provider message, else nested error message, else the error's own
message, else a fixed fallback; the CommonJS variant's error string is
the message alone (provider message, else the error's own message, else
the fallback), without the status.  For a rejection carrying status 429
and message "rate limited" and no provider payload, both variants' error
field contains "rate limited". -/
theorem claim_catch_responds_500
    (env : Option String) (ct n : String) (p g : Option String)
    (hct : ct ≠ "") (hn : n ≠ "")
    (api : CreateParams → CallOutcome) (e1 e2 : JsError)
    (hm : api (mjsCreateParams env ct p n g) = CallOutcome.failure e1)
    (hj : api (jsCreateParams env ct p n g) = CallOutcome.failure e2) :
    (analyzeMjs env (some ⟨some ct, p, some n, g⟩) api).1 =
      ⟨500, Json.obj [("success", Json.bool false),
        ("error", Json.str ("OpenAI error ("
          ++ (match truthyNat (match truthyNat e1.status with
                | some k => some k
                | none => e1.response.bind ErrResponse.status) with
              | some k => toString k
              | none => "unknown")
          ++ "): "
          ++ (match truthyStr (((e1.response.bind ErrResponse.data).bind ErrData.error).bind ErrDetail.message) with
              | some m => m
              | none =>
                match truthyStr (e1.error.bind ErrDetail.message) with
                | some m => m
                | none =>
                  match truthyStr e1.message with
                  | some m => m
                  | none => "Failed to generate analysis.")))]⟩ ∧
    (analyzeJs env (some ⟨some ct, p, some n, g⟩) api).1 =
      ⟨500, Json.obj [("success", Json.bool false),
        ("error", Json.str
          (match truthyStr (((e2.response.bind ErrResponse.data).bind ErrData.error).bind ErrDetail.message) with
            | some m => m
            | none =>
              match truthyStr e2.message with
              | some m => m
              | none => "Failed to generate analysis."))]⟩ ∧
    (e1.status = some 429 → e1.response = none → e1.error = none →
      e1.message = some "rate limited" →
      (analyzeMjs env (some ⟨some ct, p, some n, g⟩) api).1 =
        ⟨500, Json.obj [("success", Json.bool false),
            ("error", Json.str "OpenAI error (429): rate limited")]⟩ ∧
      "rate limited".data <:+: "OpenAI error (429): rate limited".data) ∧
    (e2.response = none → e2.message = some "rate limited" →
      (analyzeJs env (some ⟨some ct, p, some n, g⟩) api).1 =
        ⟨500, Json.obj [("success", Json.bool false),
            ("error", Json.str "rate limited")]⟩) := by
  have hfm := analyzeMjs_failure env ct n p g hct hn api e1 hm
  have hfj := analyzeJs_failure env ct n p g hct hn api e2 hj
  refine ⟨by rw [hfm]; exact rfl, by rw [hfj]; exact rfl, ?_, ?_⟩
  · intro h429 hresp herr hmsg
    refine ⟨?_, by decide⟩
    rw [hfm]
    show mjsErrorResponse e1 = _
    simp only [mjsErrorResponse, h429, hresp, herr, hmsg]
    rfl
  · intro hresp hmsg
    rw [hfj]
    show jsErrorResponse e2 = _
    simp only [jsErrorResponse, hresp, hmsg]
    rfl

/-- Witness for C3 (amended): a stubbed capability rejecting with status
429 and message "rate limited". -/
theorem claim_catch_responds_500_witness :
    (analyzeMjs none (some ⟨some "New Patient Scheduling", none, some "Notes.", none⟩)
        (fun _ => CallOutcome.failure ⟨some 429, none, none, some "rate limited", some "Error"⟩)).1 =
      ⟨500, Json.obj [("success", Json.bool false),
          ("error", Json.str "OpenAI error (429): rate limited")]⟩ ∧
    (analyzeJs none (some ⟨some "New Patient Scheduling", none, some "Notes.", none⟩)
        (fun _ => CallOutcome.failure ⟨some 429, none, none, some "rate limited", some "Error"⟩)).1 =
      ⟨500, Json.obj [("success", Json.bool false), ("error", Json.str "rate limited")]⟩ := by
  have h := claim_catch_responds_500 none "New Patient Scheduling" "Notes." none none
    (by decide) (by decide)
    (fun _ => CallOutcome.failure ⟨some 429, none, none, some "rate limited", some "Error"⟩)
    ⟨some 429, none, none, some "rate limited", some "Error"⟩
    ⟨some 429, none, none, some "rate limited", some "Error"⟩ rfl rfl
  exact ⟨(h.2.2.1 rfl rfl rfl rfl).1, h.2.2.2 rfl rfl⟩

/-- C4: in both variants the composed user message contains the literal
`callType` and `notes` verbatim, the supplied persona and goal or their
defaults, and the instruction to return only the JSON object; that
message is the user-role message of the request. -/
theorem claim_userPrompt_interpolation
    (env : Option String) (ct n : String) (p g : Option String) :
    (mjsCreateParams env ct p n g).messages =
      [⟨"system", mjsSystemPrompt⟩, ⟨"user", userPromptOf ct p n g⟩] ∧
    (jsCreateParams env ct p n g).messages =
      [⟨"system", jsSystemPrompt⟩, ⟨"user", userPromptOf ct p n g⟩] ∧
    ct.data <:+: (userPromptOf ct p n g).data ∧
    n.data <:+: (userPromptOf ct p n g).data ∧
    (jsOr p defaultPersona).data <:+: (userPromptOf ct p n g).data ∧
    (jsOr g defaultGoal).data <:+: (userPromptOf ct p n g).data ∧
    "Return ONLY the JSON object, no backticks, no markdown, no extra text.".data <:+:
      (userPromptOf ct p n g).data := by
  refine ⟨rfl, rfl, ?_, ?_, ?_, ?_, ?_⟩ <;> rw [userPromptOf_data]
  · exact infix_mid_list _ _ _
  · exact infix_ext_left _ (infix_ext_left _ (infix_ext_left _ (infix_ext_left _
      (infix_ext_left _ (infix_ext_left _ (infix_mid_list _ _ _))))))
  · exact infix_ext_left _ (infix_ext_left _ (infix_mid_list _ _ _))
  · exact infix_ext_left _ (infix_ext_left _ (infix_ext_left _ (infix_ext_left _
      (infix_mid_list _ _ _))))
  · have hE : "Return ONLY the JSON object, no backticks, no markdown, no extra text.".data <:+:
        "\n\nReturn ONLY the JSON object, no backticks, no markdown, no extra text.\nIf data is missing, make reasonable assumptions consistent with Stanford\nPatient Access operations and LEAN methodology.\n".data :=
      ⟨"\n\n".data,
       "\nIf data is missing, make reasonable assumptions consistent with Stanford\nPatient Access operations and LEAN methodology.\n".data,
       rfl⟩
    exact infix_ext_left _ (infix_ext_left _ (infix_ext_left _ (infix_ext_left _
      (infix_ext_left _ (infix_ext_left _ (infix_ext_left _ (infix_ext_left _ hE)))))))

/-- C5: every validated request makes exactly one call to the external
capability in each variant, whatever the outcome (so no retries), and
that call carries temperature 0.2, the json_object response-format hint,
and exactly the system message and the composed user message. -/
theorem claim_single_call_fixed_params
    (env : Option String) (ct n : String) (p g : Option String)
    (hct : ct ≠ "") (hn : n ≠ "") (api : CreateParams → CallOutcome) :
    (analyzeMjs env (some ⟨some ct, p, some n, g⟩) api).2 = [mjsCreateParams env ct p n g] ∧
    (analyzeJs env (some ⟨some ct, p, some n, g⟩) api).2 = [jsCreateParams env ct p n g] ∧
    (mjsCreateParams env ct p n g).temperature = 0.2 ∧
    (mjsCreateParams env ct p n g).responseFormatType = "json_object" ∧
    (mjsCreateParams env ct p n g).messages =
      [⟨"system", mjsSystemPrompt⟩, ⟨"user", userPromptOf ct p n g⟩] ∧
    (jsCreateParams env ct p n g).temperature = 0.2 ∧
    (jsCreateParams env ct p n g).responseFormatType = "json_object" ∧
    (jsCreateParams env ct p n g).messages =
      [⟨"system", jsSystemPrompt⟩, ⟨"user", userPromptOf ct p n g⟩] := by
  refine ⟨?_, ?_, rfl, rfl, rfl, rfl, rfl, rfl⟩
  · cases hapi : api (mjsCreateParams env ct p n g) with
    | success comp =>
      cases hraw : jsonParse (jsOr (extractContent comp) "\x7b\x7d") with
      | none => rw [analyzeMjs_parseFail env ct n p g hct hn api comp hapi hraw]
      | some j => rw [analyzeMjs_parseOk env ct n p g hct hn api comp j hapi hraw]
    | failure e => rw [analyzeMjs_failure env ct n p g hct hn api e hapi]
  · cases hapi : api (jsCreateParams env ct p n g) with
    | success comp =>
      cases hraw : jsonParse (jsOr (extractContent comp) "\x7b\x7d") with
      | none => rw [analyzeJs_parseFail env ct n p g hct hn api comp hapi hraw]
      | some j => rw [analyzeJs_parseOk env ct n p g hct hn api comp j hapi hraw]
    | failure e => rw [analyzeJs_failure env ct n p g hct hn api e hapi]

/-- Witness for C5 at a concrete validated request and a rejecting
capability. -/
theorem claim_single_call_fixed_params_witness :
    (analyzeMjs none (some ⟨some "a", none, some "b", none⟩)
        (fun _ => CallOutcome.failure ⟨none, none, none, none, none⟩)).2 =
      [mjsCreateParams none "a" none "b" none] ∧
    (analyzeJs none (some ⟨some "a", none, some "b", none⟩)
        (fun _ => CallOutcome.failure ⟨none, none, none, none, none⟩)).2 =
      [jsCreateParams none "a" none "b" none] ∧
    (mjsCreateParams none "a" none "b" none).temperature = 0.2 ∧
    (mjsCreateParams none "a" none "b" none).responseFormatType = "json_object" ∧
    (mjsCreateParams none "a" none "b" none).messages =
      [⟨"system", mjsSystemPrompt⟩, ⟨"user", userPromptOf "a" none "b" none⟩] ∧
    (jsCreateParams none "a" none "b" none).temperature = 0.2 ∧
    (jsCreateParams none "a" none "b" none).responseFormatType = "json_object" ∧
    (jsCreateParams none "a" none "b" none).messages =
      [⟨"system", jsSystemPrompt⟩, ⟨"user", userPromptOf "a" none "b" none⟩] :=
  claim_single_call_fixed_params none "a" "b" none none (by decide) (by decide)
    (fun _ => CallOutcome.failure ⟨none, none, none, none, none⟩)

/-- C6: when the external call resolves but the first completion's text
content is absent or empty, the literal text of an empty JSON object is
substituted, so both variants respond 200 with an empty analysis object
instead of entering the parse-failure path. -/
theorem claim_absent_content_empty_object
    (env : Option String) (ct n : String) (p g : Option String)
    (hct : ct ≠ "") (hn : n ≠ "") (api : CreateParams → CallOutcome) (comp : Completion)
    (hm : api (mjsCreateParams env ct p n g) = CallOutcome.success comp)
    (hj : api (jsCreateParams env ct p n g) = CallOutcome.success comp)
    (habs : truthyStr (extractContent comp) = none) :
    jsOr (extractContent comp) "\x7b\x7d" = "\x7b\x7d" ∧
    (analyzeMjs env (some ⟨some ct, p, some n, g⟩) api).1 =
      ⟨200, Json.obj [("success", Json.bool true), ("analysis", Json.obj [])]⟩ ∧
    (analyzeJs env (some ⟨some ct, p, some n, g⟩) api).1 =
      ⟨200, Json.obj [("success", Json.bool true), ("analysis", Json.obj [])]⟩ := by
  have hsub : jsOr (extractContent comp) "\x7b\x7d" = "\x7b\x7d" := jsOr_of_falsy _ _ habs
  have hparse : jsonParse (jsOr (extractContent comp) "\x7b\x7d") = some (Json.obj []) := by
    rw [hsub]; exact rfl
  refine ⟨hsub, ?_, ?_⟩
  · rw [analyzeMjs_parseOk env ct n p g hct hn api comp (Json.obj []) hm hparse]
  · rw [analyzeJs_parseOk env ct n p g hct hn api comp (Json.obj []) hj hparse]

/-- Witness for C6: a completion whose `choices` array is absent. -/
theorem claim_absent_content_empty_object_witness :
    truthyStr (extractContent ⟨none⟩) = none ∧
    (analyzeMjs none (some ⟨some "a", none, some "b", none⟩)
        (fun _ => CallOutcome.success ⟨none⟩)).1 =
      ⟨200, Json.obj [("success", Json.bool true), ("analysis", Json.obj [])]⟩ ∧
    (analyzeJs none (some ⟨some "a", none, some "b", none⟩)
        (fun _ => CallOutcome.success ⟨none⟩)).1 =
      ⟨200, Json.obj [("success", Json.bool true), ("analysis", Json.obj [])]⟩ := by
  have h := claim_absent_content_empty_object none "a" "b" none none (by decide) (by decide)
    (fun _ => CallOutcome.success ⟨none⟩) ⟨none⟩ rfl rfl rfl
  exact ⟨rfl, h.2.1, h.2.2⟩

/-- C7: `GET /health` responds 200 with status ok in both variants,
whatever the configured credential and model override. -/
theorem claim_health_ok (apiKey textModelEnv : Option String) :
    healthMjs apiKey textModelEnv = ⟨200, Json.obj [("status", Json.str "ok")]⟩ ∧
    healthJs apiKey textModelEnv = ⟨200, Json.obj [("status", Json.str "ok")]⟩ :=
  ⟨rfl, rfl⟩

/-- C8: prompt composition is a pure total function of the validated
request fields: equal fields give identical system and user prompt
strings in each variant, the system prompt being a request-independent
constant. -/
theorem claim_prompt_composition_pure
    (ct1 ct2 n1 n2 : String) (p1 p2 g1 g2 : Option String)
    (hct : ct1 = ct2) (hp : p1 = p2) (hn : n1 = n2) (hg : g1 = g2) :
    composePromptsMjs ct1 p1 n1 g1 = composePromptsMjs ct2 p2 n2 g2 ∧
    composePromptsJs ct1 p1 n1 g1 = composePromptsJs ct2 p2 n2 g2 ∧
    (composePromptsMjs ct1 p1 n1 g1).1 = mjsSystemPrompt ∧
    (composePromptsJs ct1 p1 n1 g1).1 = jsSystemPrompt ∧
    (composePromptsMjs ct1 p1 n1 g1).2 = userPromptOf ct1 p1 n1 g1 ∧
    (composePromptsJs ct1 p1 n1 g1).2 = userPromptOf ct1 p1 n1 g1 := by
  subst hct hp hn hg
  exact ⟨rfl, rfl, rfl, rfl, rfl, rfl⟩

/-- Witness for C8 at concrete equal requests. -/
theorem claim_prompt_composition_pure_witness :
    composePromptsMjs "New Patient Scheduling" none "Notes here." none =
      composePromptsMjs "New Patient Scheduling" none "Notes here." none ∧
    composePromptsJs "New Patient Scheduling" none "Notes here." none =
      composePromptsJs "New Patient Scheduling" none "Notes here." none ∧
    (composePromptsMjs "New Patient Scheduling" none "Notes here." none).1 = mjsSystemPrompt ∧
    (composePromptsJs "New Patient Scheduling" none "Notes here." none).1 = jsSystemPrompt ∧
    (composePromptsMjs "New Patient Scheduling" none "Notes here." none).2 =
      userPromptOf "New Patient Scheduling" none "Notes here." none ∧
    (composePromptsJs "New Patient Scheduling" none "Notes here." none).2 =
      userPromptOf "New Patient Scheduling" none "Notes here." none :=
  claim_prompt_composition_pure "New Patient Scheduling" "New Patient Scheduling"
    "Notes here." "Notes here." none none none none rfl rfl rfl rfl

/-- C9: a wholly absent request body is guarded by the empty-object
default, so the handler returns the same 400 validation response as for
a body with missing fields, in both variants, with no call made. -/
theorem claim_null_body_validation (env : Option String) (api : CreateParams → CallOutcome) :
    analyzeMjs env none api = analyzeMjs env (some emptyBody) api ∧
    analyzeMjs env none api =
      (⟨400, Json.obj [("success", Json.bool false),
          ("error", Json.str "callType and notes are required.")]⟩, []) ∧
    analyzeJs env none api = analyzeJs env (some emptyBody) api ∧
    analyzeJs env none api =
      (⟨400, Json.obj [("success", Json.bool false),
          ("error", Json.str "callType and notes are required.")]⟩, []) :=
  ⟨rfl, rfl, rfl, rfl⟩

/-- C10: the two variants are observationally equivalent on the
validation-failure path and on the parse-success path: validation
failures give the same response in both, and a resolved call whose text
parses as JSON gives the same 200 response carrying the parsed value in
both. -/
theorem claim_variants_equivalent
    (env : Option String) (reqBody : Option ReqBody) (api : CreateParams → CallOutcome) :
    (truthy ((reqBody.getD emptyBody).callType) = false ∨
       truthy ((reqBody.getD emptyBody).notes) = false →
      (analyzeMjs env reqBody api).1 = (analyzeJs env reqBody api).1) ∧
    (∀ (ct n : String) (p g : Option String) (comp : Completion) (j : Json),
      reqBody = some ⟨some ct, p, some n, g⟩ → ct ≠ "" → n ≠ "" →
      api (mjsCreateParams env ct p n g) = CallOutcome.success comp →
      api (jsCreateParams env ct p n g) = CallOutcome.success comp →
      jsonParse (jsOr (extractContent comp) "\x7b\x7d") = some j →
      (analyzeMjs env reqBody api).1 = (analyzeJs env reqBody api).1 ∧
      (analyzeMjs env reqBody api).1 =
        ⟨200, Json.obj [("success", Json.bool true), ("analysis", j)]⟩) := by
  constructor
  · intro h
    rw [analyzeMjs_invalid env reqBody api h, analyzeJs_invalid env reqBody api h]
  · intro ct n p g comp j hb hct hn hm hj hraw
    subst hb
    rw [analyzeMjs_parseOk env ct n p g hct hn api comp j hm hraw,
        analyzeJs_parseOk env ct n p g hct hn api comp j hj hraw]
    exact ⟨rfl, rfl⟩

/-- Witness for C10: a stubbed capability returning the text of an empty
JSON object to both variants. -/
theorem claim_variants_equivalent_witness :
    (analyzeMjs none (some ⟨some "a", none, some "b", none⟩)
        (fun _ => CallOutcome.success ⟨some [⟨some ⟨some "\x7b\x7d"⟩⟩]⟩)).1 =
      (analyzeJs none (some ⟨some "a", none, some "b", none⟩)
        (fun _ => CallOutcome.success ⟨some [⟨some ⟨some "\x7b\x7d"⟩⟩]⟩)).1 ∧
    (analyzeMjs none (some ⟨some "a", none, some "b", none⟩)
        (fun _ => CallOutcome.success ⟨some [⟨some ⟨some "\x7b\x7d"⟩⟩]⟩)).1 =
      ⟨200, Json.obj [("success", Json.bool true), ("analysis", Json.obj [])]⟩ :=
  (claim_variants_equivalent none (some ⟨some "a", none, some "b", none⟩)
      (fun _ => CallOutcome.success ⟨some [⟨some ⟨some "\x7b\x7d"⟩⟩]⟩)).2
    "a" "b" none none ⟨some [⟨some ⟨some "\x7b\x7d"⟩⟩]⟩ (Json.obj [])
    rfl (by decide) (by decide) rfl rfl rfl

end PatientAccess
